import Mathlib

/-!
Shallow embedding of `autogpt/llm_utils.py`.

The module wraps chat-completion and embedding calls to the OpenAI SDK with a
retry loop. Each attempt's outcome (success / rate-limit error / API error
with an HTTP status) is modelled by a schedule `api : ℕ → ApiResult _` giving
the SDK's behaviour at every attempt index. The loop is embedded as a
fuel-indexed recursive function that records the observable trace: the sleep
durations performed, the log/print events emitted, and the provider calls
issued (with exactly the keyword arguments the source passes).
-/

/-- Outcome of one call to the OpenAI SDK: a successful response, a
`RateLimitError`, or an `APIError` carrying `http_status`. -/
inductive ApiResult (α : Type) where
  | success (resp : α)
  | rateLimit
  | apiError (http_status : Int)
  deriving DecidableEq

/-- The fields of the global `Config` singleton that `llm_utils.py` reads. -/
structure Config where
  use_azure : Bool
  debug_mode : Bool
  temperature : ℚ
  smart_llm_model : String
  get_azure_deployment_id_for_model : Option String → String

/-- `response.choices[i].message` of a chat-completion response. -/
structure ChatMessage where
  content : String
  deriving DecidableEq

/-- One element of `response.choices`. -/
structure Choice where
  message : ChatMessage
  deriving DecidableEq

/-- A chat-completion response: the list `response.choices`. -/
structure ChatResponse where
  choices : List Choice
  deriving DecidableEq

/-- A role-tagged message dict, as built by `call_ai_function`. -/
structure PyMessage where
  role : String
  content : String
  deriving DecidableEq

/-- The keyword arguments passed to `openai.ChatCompletion.create`:
`deployment_id` is present exactly on the Azure branch. -/
structure ProviderCall where
  deployment_id : Option String
  model : Option String
  messages : List PyMessage
  temperature : ℚ
  max_tokens : Option ℕ
  deriving DecidableEq

/-- Log/print events the module can emit, in program order.
`rateLimitAdvisory` stands for the one-time `logger.double_check` advisory on
the rate-limit path; in this source that call is commented out. -/
inductive LogEvent where
  | debugCreating
  | debugRateLimit
  | debugBadGateway (backoff : ℕ)
  | rateLimitAdvisory
  | exhaustionTypewriter
  | exhaustionDoubleCheck
  deriving DecidableEq

/-- The observable trace accumulated by a retry loop: sleep durations (in
seconds, in order), log events, and provider calls issued. -/
structure Effects (κ : Type) where
  sleeps : List ℕ
  logs : List LogEvent
  calls : List κ
  deriving DecidableEq

/-- How the `for attempt in range(num_retries)` loop of
`create_chat_completion` ends: `break` with a bound `response`, an exception
propagating out, or falling off the end with `response` still `None`. -/
inductive LoopExit where
  | broke (resp : ChatResponse)
  | raised (status : Int)
  | exhausted
  deriving DecidableEq

/-- Observable result of one run of `create_chat_completion`. -/
inductive ChatOutcome where
  | returned (content : String)
  | raisedApi (status : Int)
  | raisedRuntime
  | procQuit (code : ℕ)
  | indexError
  deriving DecidableEq

/-- Full observable record of one run of `create_chat_completion`. -/
structure ChatRun where
  outcome : ChatOutcome
  sleeps : List ℕ
  logs : List LogEvent
  calls : List ProviderCall
  deriving DecidableEq

/-- `num_retries = 10` in both functions. -/
def numRetries : ℕ := 10

/-- The retry loop body of `create_chat_completion` (lines 81-124): at each
attempt, `backoff = 2 ** (attempt + 2)`; a success breaks; a
`RateLimitError` prints twice in debug mode, sets `warned_user` (the
advisory itself is commented out), sleeps and continues; an `APIError` with
status 502 re-raises on the last attempt and otherwise sleeps and continues;
any other `APIError` re-raises immediately. -/
def chatLoopGo (cfg : Config) (api : ℕ → ApiResult ChatResponse) (pc : ProviderCall) :
    ℕ → ℕ → Bool → LoopExit × Effects ProviderCall
  | _, 0, _ => (LoopExit.exhausted, ⟨[], [], []⟩)
  | attempt, fuel + 1, warned =>
      match api attempt with
      | ApiResult.success resp => (LoopExit.broke resp, ⟨[], [], [pc]⟩)
      | ApiResult.rateLimit =>
          let backoff := 2 ^ (attempt + 2)
          let hlogs := if cfg.debug_mode then
              [LogEvent.debugRateLimit, LogEvent.debugBadGateway backoff] else []
          let r := chatLoopGo cfg api pc (attempt + 1) fuel true
          (r.1, ⟨backoff :: r.2.sleeps, hlogs ++ r.2.logs, pc :: r.2.calls⟩)
      | ApiResult.apiError status =>
          if status = 502 then
            if attempt = numRetries - 1 then
              (LoopExit.raised status, ⟨[], [], [pc]⟩)
            else
              let backoff := 2 ^ (attempt + 2)
              let glogs := if cfg.debug_mode then [LogEvent.debugBadGateway backoff] else []
              let r := chatLoopGo cfg api pc (attempt + 1) fuel warned
              (r.1, ⟨backoff :: r.2.sleeps, glogs ++ r.2.logs, pc :: r.2.calls⟩)
          else (LoopExit.raised status, ⟨[], [], [pc]⟩)

/-- The keyword arguments `create_chat_completion` passes to
`openai.ChatCompletion.create`: on the Azure branch it additionally passes
`deployment_id=CFG.get_azure_deployment_id_for_model(model)`. -/
def mkChatProviderCall (cfg : Config) (messages : List PyMessage) (model : Option String)
    (temperature : ℚ) (max_tokens : Option ℕ) : ProviderCall :=
  if cfg.use_azure then
    ⟨some (cfg.get_azure_deployment_id_for_model model), model, messages, temperature, max_tokens⟩
  else
    ⟨none, model, messages, temperature, max_tokens⟩

/-- The code after the loop of `create_chat_completion` (lines 125-138): if
`response` is `None`, log the failure, then raise `RuntimeError` in debug
mode and `quit(1)` otherwise; on a `break`, return
`response.choices[0].message["content"]` (an empty `choices` list would be an
uncaught `IndexError`). -/
def finishChat (cfg : Config) (logs0 : List LogEvent)
    (r : LoopExit × Effects ProviderCall) : ChatRun :=
  match r.1 with
  | LoopExit.broke resp =>
      match resp.choices with
      | [] => ⟨ChatOutcome.indexError, r.2.sleeps, logs0 ++ r.2.logs, r.2.calls⟩
      | c :: _ =>
          ⟨ChatOutcome.returned c.message.content, r.2.sleeps, logs0 ++ r.2.logs, r.2.calls⟩
  | LoopExit.raised s => ⟨ChatOutcome.raisedApi s, r.2.sleeps, logs0 ++ r.2.logs, r.2.calls⟩
  | LoopExit.exhausted =>
      if cfg.debug_mode then
        ⟨ChatOutcome.raisedRuntime, r.2.sleeps,
          logs0 ++ r.2.logs ++ [LogEvent.exhaustionTypewriter, LogEvent.exhaustionDoubleCheck],
          r.2.calls⟩
      else
        ⟨ChatOutcome.procQuit 1, r.2.sleeps,
          logs0 ++ r.2.logs ++ [LogEvent.exhaustionTypewriter, LogEvent.exhaustionDoubleCheck],
          r.2.calls⟩

/-- `create_chat_completion(messages, model, temperature, max_tokens)`:
prints a debug line, runs the retry loop from attempt 0 with
`num_retries = 10` and `warned_user = False`, then finishes as the source
does. -/
def create_chat_completion (cfg : Config) (api : ℕ → ApiResult ChatResponse)
    (messages : List PyMessage) (model : Option String) (temperature : ℚ)
    (max_tokens : Option ℕ) : ChatRun :=
  finishChat cfg (if cfg.debug_mode then [LogEvent.debugCreating] else [])
    (chatLoopGo cfg api (mkChatProviderCall cfg messages model temperature max_tokens)
      0 numRetries false)

/-- A Python argument value as `call_ai_function` receives it. -/
inductive PyArg where
  | pyNone
  | pyStr (s : String)
  | pyInt (n : Int)
  deriving DecidableEq

/-- `str(arg) if arg is not None else "None"` for one argument. -/
def strOfArg : PyArg → String
  | PyArg.pyNone => "None"
  | PyArg.pyStr s => s
  | PyArg.pyInt n => toString n

/-- The system-message content `call_ai_function` builds from `description`
and `function`. -/
def systemContent (function : String) (description : String) : String :=
  "你现在是以下的Python函数: ```# " ++ description ++ "\n" ++ function ++
    "```\n\n只回复你的 `return` 值."

/-- `call_ai_function(function, args, description, model)` (lines 18-51):
defaults `model` to `CFG.smart_llm_model`, stringifies the arguments
(`None` becomes `"None"`), joins them with `", "`, builds the two messages,
and delegates to `create_chat_completion` with `temperature=0`. -/
def call_ai_function (cfg : Config) (api : ℕ → ApiResult ChatResponse)
    (function : String) (args : List PyArg) (description : String)
    (model : Option String) : ChatRun :=
  let model := match model with
    | none => cfg.smart_llm_model
    | some m => m
  let argsStr := String.intercalate ", " (args.map strOfArg)
  let messages : List PyMessage :=
    [⟨"system", systemContent function description⟩, ⟨"user", argsStr⟩]
  create_chat_completion cfg api messages (some model) 0 none

/-- One element of the embedding response's `["data"]` list. -/
structure EmbItem (α : Type) where
  embedding : α
  deriving DecidableEq

/-- An embedding response: the list under key `"data"`. The embedding payload
type is abstract because the source only passes it through. -/
structure EmbResponse (α : Type) where
  data : List (EmbItem α)
  deriving DecidableEq

/-- The keyword arguments passed to `openai.Embedding.create`: the Azure
branch passes `engine=...` and the direct branch `model=...`. -/
structure EmbProviderCall where
  engine : Option String
  model : Option String
  input : List String
  deriving DecidableEq

/-- Observable result of one run of `create_embedding_with_ada`:
`returnedNone` is the implicit `return None` when the loop falls off its
end. -/
inductive EmbOutcome (α : Type) where
  | returned (v : α)
  | raisedApi (status : Int)
  | returnedNone
  | indexError
  deriving DecidableEq

/-- Full observable record of one run of `create_embedding_with_ada`. -/
structure EmbRun (α : Type) where
  outcome : EmbOutcome α
  sleeps : List ℕ
  logs : List LogEvent
  calls : List EmbProviderCall
  deriving DecidableEq

/-- The retry loop of `create_embedding_with_ada` (lines 141-172): a success
returns `...["data"][0]["embedding"]` from inside the `try`; a
`RateLimitError` is passed over silently; an `APIError` with status 502
re-raises on the last attempt and otherwise continues; any other `APIError`
re-raises; each failed attempt prints in debug mode and sleeps `backoff`;
falling off the loop returns `None`. -/
def embLoopGo {α : Type} (cfg : Config) (api : ℕ → ApiResult (EmbResponse α))
    (pc : EmbProviderCall) : ℕ → ℕ → EmbOutcome α × Effects EmbProviderCall
  | _, 0 => (EmbOutcome.returnedNone, ⟨[], [], []⟩)
  | attempt, fuel + 1 =>
      match api attempt with
      | ApiResult.success resp =>
          match resp.data with
          | [] => (EmbOutcome.indexError, ⟨[], [], [pc]⟩)
          | d :: _ => (EmbOutcome.returned d.embedding, ⟨[], [], [pc]⟩)
      | ApiResult.rateLimit =>
          let backoff := 2 ^ (attempt + 2)
          let glogs := if cfg.debug_mode then [LogEvent.debugBadGateway backoff] else []
          let r := embLoopGo cfg api pc (attempt + 1) fuel
          (r.1, ⟨backoff :: r.2.sleeps, glogs ++ r.2.logs, pc :: r.2.calls⟩)
      | ApiResult.apiError status =>
          if status = 502 then
            if attempt = numRetries - 1 then
              (EmbOutcome.raisedApi status, ⟨[], [], [pc]⟩)
            else
              let backoff := 2 ^ (attempt + 2)
              let glogs := if cfg.debug_mode then [LogEvent.debugBadGateway backoff] else []
              let r := embLoopGo cfg api pc (attempt + 1) fuel
              (r.1, ⟨backoff :: r.2.sleeps, glogs ++ r.2.logs, pc :: r.2.calls⟩)
          else (EmbOutcome.raisedApi status, ⟨[], [], [pc]⟩)

/-- The keyword arguments `create_embedding_with_ada` passes to
`openai.Embedding.create` on each branch. -/
def mkEmbProviderCall (cfg : Config) (text : String) : EmbProviderCall :=
  if cfg.use_azure then
    ⟨some (cfg.get_azure_deployment_id_for_model (some "text-embedding-ada-002")), none, [text]⟩
  else
    ⟨none, some "text-embedding-ada-002", [text]⟩

/-- `create_embedding_with_ada(text)`: the retry loop from attempt 0 with
`num_retries = 10`. -/
def create_embedding_with_ada {α : Type} (cfg : Config)
    (api : ℕ → ApiResult (EmbResponse α)) (text : String) : EmbRun α :=
  ⟨(embLoopGo cfg api (mkEmbProviderCall cfg text) 0 numRetries).1,
   (embLoopGo cfg api (mkEmbProviderCall cfg text) 0 numRetries).2.sleeps,
   (embLoopGo cfg api (mkEmbProviderCall cfg text) 0 numRetries).2.logs,
   (embLoopGo cfg api (mkEmbProviderCall cfg text) 0 numRetries).2.calls⟩

/-- An attempt outcome the source treats as transient: a rate-limit error or
a 502 gateway error. -/
def isTransient {α : Type} (r : ApiResult α) : Prop :=
  r = ApiResult.rateLimit ∨ r = ApiResult.apiError 502

instance {α : Type} [DecidableEq α] (r : ApiResult α) : Decidable (isTransient r) := by
  unfold isTransient
  infer_instance

/-- The backoff schedule: sleeps of `2 ^ (a + i + 2)` seconds for
`i = 0, ..., n-1`. -/
def backoffList (a n : ℕ) : List ℕ :=
  (List.range n).map (fun i => 2 ^ (a + i + 2))

theorem chatLoopGo_zero (cfg : Config) (api : ℕ → ApiResult ChatResponse) (pc : ProviderCall)
    (a : ℕ) (w : Bool) : chatLoopGo cfg api pc a 0 w = (LoopExit.exhausted, ⟨[], [], []⟩) := rfl

theorem chatLoopGo_success (cfg : Config) (api : ℕ → ApiResult ChatResponse) (pc : ProviderCall)
    (a f : ℕ) (w : Bool) (resp : ChatResponse) (h : api a = ApiResult.success resp) :
    chatLoopGo cfg api pc a (f + 1) w = (LoopExit.broke resp, ⟨[], [], [pc]⟩) := by
  simp [chatLoopGo, h]

theorem chatLoopGo_rateLimit (cfg : Config) (api : ℕ → ApiResult ChatResponse) (pc : ProviderCall)
    (a f : ℕ) (w : Bool) (h : api a = ApiResult.rateLimit) :
    chatLoopGo cfg api pc a (f + 1) w =
      ((chatLoopGo cfg api pc (a + 1) f true).1,
       ⟨2 ^ (a + 2) :: (chatLoopGo cfg api pc (a + 1) f true).2.sleeps,
        (if cfg.debug_mode then
            [LogEvent.debugRateLimit, LogEvent.debugBadGateway (2 ^ (a + 2))] else []) ++
          (chatLoopGo cfg api pc (a + 1) f true).2.logs,
        pc :: (chatLoopGo cfg api pc (a + 1) f true).2.calls⟩) := by
  simp [chatLoopGo, h]

theorem chatLoopGo_gateway (cfg : Config) (api : ℕ → ApiResult ChatResponse) (pc : ProviderCall)
    (a f : ℕ) (w : Bool) (h : api a = ApiResult.apiError 502) (ha : a ≠ numRetries - 1) :
    chatLoopGo cfg api pc a (f + 1) w =
      ((chatLoopGo cfg api pc (a + 1) f w).1,
       ⟨2 ^ (a + 2) :: (chatLoopGo cfg api pc (a + 1) f w).2.sleeps,
        (if cfg.debug_mode then [LogEvent.debugBadGateway (2 ^ (a + 2))] else []) ++
          (chatLoopGo cfg api pc (a + 1) f w).2.logs,
        pc :: (chatLoopGo cfg api pc (a + 1) f w).2.calls⟩) := by
  simp [chatLoopGo, h, ha]

theorem chatLoopGo_gateway_last (cfg : Config) (api : ℕ → ApiResult ChatResponse)
    (pc : ProviderCall) (a f : ℕ) (w : Bool) (h : api a = ApiResult.apiError 502)
    (ha : a = numRetries - 1) :
    chatLoopGo cfg api pc a (f + 1) w = (LoopExit.raised 502, ⟨[], [], [pc]⟩) := by
  subst ha
  simp [chatLoopGo, h]

theorem chatLoopGo_otherError (cfg : Config) (api : ℕ → ApiResult ChatResponse)
    (pc : ProviderCall) (a f : ℕ) (w : Bool) (s : Int) (h : api a = ApiResult.apiError s)
    (hs : s ≠ 502) :
    chatLoopGo cfg api pc a (f + 1) w = (LoopExit.raised s, ⟨[], [], [pc]⟩) := by
  simp [chatLoopGo, h, hs]

theorem chatLoopGo_warned_irrel (cfg : Config) (api : ℕ → ApiResult ChatResponse)
    (pc : ProviderCall) : ∀ (fuel a : ℕ) (w w' : Bool),
    chatLoopGo cfg api pc a fuel w = chatLoopGo cfg api pc a fuel w' := by
  intro fuel
  induction fuel with
  | zero => intro a w w'; rfl
  | succ f ih =>
      intro a w w'
      cases h : api a with
      | success resp =>
          rw [chatLoopGo_success cfg api pc a f w resp h,
            chatLoopGo_success cfg api pc a f w' resp h]
      | rateLimit =>
          rw [chatLoopGo_rateLimit cfg api pc a f w h,
            chatLoopGo_rateLimit cfg api pc a f w' h]
      | apiError s =>
          by_cases h5 : s = 502
          · subst h5
            by_cases ha : a = numRetries - 1
            · rw [chatLoopGo_gateway_last cfg api pc a f w h ha,
                chatLoopGo_gateway_last cfg api pc a f w' h ha]
            · rw [chatLoopGo_gateway cfg api pc a f w h ha,
                chatLoopGo_gateway cfg api pc a f w' h ha, ih (a + 1) w w']
          · rw [chatLoopGo_otherError cfg api pc a f w s h h5,
              chatLoopGo_otherError cfg api pc a f w' s h h5]

theorem backoffList_zero (a : ℕ) : backoffList a 0 = [] := rfl

theorem backoffList_succ (a n : ℕ) :
    backoffList a (n + 1) = 2 ^ (a + 2) :: backoffList (a + 1) n := by
  unfold backoffList
  rw [List.range_succ_eq_map, List.map_cons, List.map_map]
  refine congrArg₂ _ rfl ?_
  refine List.map_congr_left ?_
  intro i _
  simp only [Function.comp]
  refine congrArg _ ?_
  omega

theorem backoffList_length (a n : ℕ) : (backoffList a n).length = n := by
  simp [backoffList]

example : (create_chat_completion ⟨false, false, 0, "m", fun _ => "d"⟩
    (fun _ => ApiResult.success ⟨[⟨⟨"ok"⟩⟩]⟩) [] none 0 none).outcome =
    ChatOutcome.returned "ok" := by decide

example : (create_chat_completion ⟨false, false, 0, "m", fun _ => "d"⟩
    (fun _ => ApiResult.apiError 502) [] none 0 none).outcome =
    ChatOutcome.raisedApi 502 := by decide

example : (create_chat_completion ⟨false, false, 0, "m", fun _ => "d"⟩
    (fun _ => ApiResult.rateLimit) [] none 0 none).outcome =
    ChatOutcome.procQuit 1 := by decide

example : (create_chat_completion ⟨false, false, 0, "m", fun _ => "d"⟩
    (fun _ => ApiResult.rateLimit) [] none 0 none).sleeps =
    [4, 8, 16, 32, 64, 128, 256, 512, 1024, 2048] := by decide

example : (create_embedding_with_ada ⟨false, false, 0, "m", fun _ => "d"⟩
    (fun _ => (ApiResult.rateLimit : ApiResult (EmbResponse ℕ))) "t").outcome =
    EmbOutcome.returnedNone := by decide

theorem chatLoopGo_skip (cfg : Config) (api : ℕ → ApiResult ChatResponse) (pc : ProviderCall) :
    ∀ (n a fuel : ℕ) (w : Bool), n ≤ fuel →
    (∀ i, i < n → api (a + i) = ApiResult.rateLimit ∨
        (api (a + i) = ApiResult.apiError 502 ∧ a + i ≠ numRetries - 1)) →
    ∃ ls : List LogEvent,
      chatLoopGo cfg api pc a fuel w =
        ((chatLoopGo cfg api pc (a + n) (fuel - n) w).1,
         ⟨backoffList a n ++ (chatLoopGo cfg api pc (a + n) (fuel - n) w).2.sleeps,
          ls ++ (chatLoopGo cfg api pc (a + n) (fuel - n) w).2.logs,
          List.replicate n pc ++ (chatLoopGo cfg api pc (a + n) (fuel - n) w).2.calls⟩) := by
  intro n
  induction n with
  | zero =>
      intro a fuel w _ _
      exact ⟨[], rfl⟩
  | succ n ih =>
      intro a fuel w hfuel htrans
      obtain ⟨f, rfl⟩ : ∃ f, fuel = f + 1 := ⟨fuel - 1, by omega⟩
      have hshift : ∀ i, i < n → api (a + 1 + i) = ApiResult.rateLimit ∨
          (api (a + 1 + i) = ApiResult.apiError 502 ∧ a + 1 + i ≠ numRetries - 1) := by
        intro i hi
        have hh := htrans (i + 1) (by omega)
        rwa [show a + (i + 1) = a + 1 + i by omega] at hh
      have hn : n ≤ f := by omega
      rcases htrans 0 (Nat.succ_pos n) with h0 | ⟨h0, h9⟩
      · rw [chatLoopGo_rateLimit cfg api pc a f w h0]
        obtain ⟨ls, hls⟩ := ih (a + 1) f true hn hshift
        rw [chatLoopGo_warned_irrel cfg api pc (f - n) (a + 1 + n) true w] at hls
        rw [hls]
        rw [show a + (n + 1) = a + 1 + n by omega, show f + 1 - (n + 1) = f - n by omega]
        refine ⟨(if cfg.debug_mode then
            [LogEvent.debugRateLimit, LogEvent.debugBadGateway (2 ^ (a + 2))] else []) ++ ls, ?_⟩
        simp [backoffList_succ, List.replicate_succ, List.append_assoc]
      · rw [chatLoopGo_gateway cfg api pc a f w h0 h9]
        obtain ⟨ls, hls⟩ := ih (a + 1) f w hn hshift
        rw [hls]
        rw [show a + (n + 1) = a + 1 + n by omega, show f + 1 - (n + 1) = f - n by omega]
        refine ⟨(if cfg.debug_mode then [LogEvent.debugBadGateway (2 ^ (a + 2))] else []) ++ ls, ?_⟩
        simp [backoffList_succ, List.replicate_succ, List.append_assoc]

theorem embLoopGo_zero {α : Type} (cfg : Config) (api : ℕ → ApiResult (EmbResponse α))
    (pc : EmbProviderCall) (a : ℕ) :
    embLoopGo cfg api pc a 0 = (EmbOutcome.returnedNone, ⟨[], [], []⟩) := rfl

theorem embLoopGo_success {α : Type} (cfg : Config) (api : ℕ → ApiResult (EmbResponse α))
    (pc : EmbProviderCall) (a f : ℕ) (resp : EmbResponse α) (d : EmbItem α)
    (ds : List (EmbItem α)) (h : api a = ApiResult.success resp) (hd : resp.data = d :: ds) :
    embLoopGo cfg api pc a (f + 1) = (EmbOutcome.returned d.embedding, ⟨[], [], [pc]⟩) := by
  simp [embLoopGo, h, hd]

theorem embLoopGo_rateLimit {α : Type} (cfg : Config) (api : ℕ → ApiResult (EmbResponse α))
    (pc : EmbProviderCall) (a f : ℕ) (h : api a = ApiResult.rateLimit) :
    embLoopGo cfg api pc a (f + 1) =
      ((embLoopGo cfg api pc (a + 1) f).1,
       ⟨2 ^ (a + 2) :: (embLoopGo cfg api pc (a + 1) f).2.sleeps,
        (if cfg.debug_mode then [LogEvent.debugBadGateway (2 ^ (a + 2))] else []) ++
          (embLoopGo cfg api pc (a + 1) f).2.logs,
        pc :: (embLoopGo cfg api pc (a + 1) f).2.calls⟩) := by
  simp [embLoopGo, h]

theorem embLoopGo_gateway {α : Type} (cfg : Config) (api : ℕ → ApiResult (EmbResponse α))
    (pc : EmbProviderCall) (a f : ℕ) (h : api a = ApiResult.apiError 502)
    (ha : a ≠ numRetries - 1) :
    embLoopGo cfg api pc a (f + 1) =
      ((embLoopGo cfg api pc (a + 1) f).1,
       ⟨2 ^ (a + 2) :: (embLoopGo cfg api pc (a + 1) f).2.sleeps,
        (if cfg.debug_mode then [LogEvent.debugBadGateway (2 ^ (a + 2))] else []) ++
          (embLoopGo cfg api pc (a + 1) f).2.logs,
        pc :: (embLoopGo cfg api pc (a + 1) f).2.calls⟩) := by
  simp [embLoopGo, h, ha]

theorem embLoopGo_gateway_last {α : Type} (cfg : Config) (api : ℕ → ApiResult (EmbResponse α))
    (pc : EmbProviderCall) (a f : ℕ) (h : api a = ApiResult.apiError 502)
    (ha : a = numRetries - 1) :
    embLoopGo cfg api pc a (f + 1) = (EmbOutcome.raisedApi 502, ⟨[], [], [pc]⟩) := by
  subst ha
  simp [embLoopGo, h]

theorem embLoopGo_otherError {α : Type} (cfg : Config) (api : ℕ → ApiResult (EmbResponse α))
    (pc : EmbProviderCall) (a f : ℕ) (s : Int) (h : api a = ApiResult.apiError s)
    (hs : s ≠ 502) :
    embLoopGo cfg api pc a (f + 1) = (EmbOutcome.raisedApi s, ⟨[], [], [pc]⟩) := by
  simp [embLoopGo, h, hs]

theorem embLoopGo_skip {α : Type} (cfg : Config) (api : ℕ → ApiResult (EmbResponse α))
    (pc : EmbProviderCall) :
    ∀ (n a fuel : ℕ), n ≤ fuel →
    (∀ i, i < n → api (a + i) = ApiResult.rateLimit ∨
        (api (a + i) = ApiResult.apiError 502 ∧ a + i ≠ numRetries - 1)) →
    ∃ ls : List LogEvent,
      embLoopGo cfg api pc a fuel =
        ((embLoopGo cfg api pc (a + n) (fuel - n)).1,
         ⟨backoffList a n ++ (embLoopGo cfg api pc (a + n) (fuel - n)).2.sleeps,
          ls ++ (embLoopGo cfg api pc (a + n) (fuel - n)).2.logs,
          List.replicate n pc ++ (embLoopGo cfg api pc (a + n) (fuel - n)).2.calls⟩) := by
  intro n
  induction n with
  | zero =>
      intro a fuel _ _
      exact ⟨[], rfl⟩
  | succ n ih =>
      intro a fuel hfuel htrans
      obtain ⟨f, rfl⟩ : ∃ f, fuel = f + 1 := ⟨fuel - 1, by omega⟩
      have hshift : ∀ i, i < n → api (a + 1 + i) = ApiResult.rateLimit ∨
          (api (a + 1 + i) = ApiResult.apiError 502 ∧ a + 1 + i ≠ numRetries - 1) := by
        intro i hi
        have hh := htrans (i + 1) (by omega)
        rwa [show a + (i + 1) = a + 1 + i by omega] at hh
      have hn : n ≤ f := by omega
      obtain ⟨ls, hls⟩ := ih (a + 1) f hn hshift
      rcases htrans 0 (Nat.succ_pos n) with h0 | ⟨h0, h9⟩
      · rw [embLoopGo_rateLimit cfg api pc a f h0, hls]
        rw [show a + (n + 1) = a + 1 + n by omega, show f + 1 - (n + 1) = f - n by omega]
        refine ⟨(if cfg.debug_mode then [LogEvent.debugBadGateway (2 ^ (a + 2))] else []) ++ ls, ?_⟩
        simp [backoffList_succ, List.replicate_succ, List.append_assoc]
      · rw [embLoopGo_gateway cfg api pc a f h0 h9, hls]
        rw [show a + (n + 1) = a + 1 + n by omega, show f + 1 - (n + 1) = f - n by omega]
        refine ⟨(if cfg.debug_mode then [LogEvent.debugBadGateway (2 ^ (a + 2))] else []) ++ ls, ?_⟩
        simp [backoffList_succ, List.replicate_succ, List.append_assoc]

theorem chatLoopGo_calls_eq (cfg : Config) (api : ℕ → ApiResult ChatResponse)
    (pc : ProviderCall) : ∀ (fuel a : ℕ) (w : Bool) (c : ProviderCall),
    c ∈ (chatLoopGo cfg api pc a fuel w).2.calls → c = pc := by
  intro fuel
  induction fuel with
  | zero => intro a w c hc; simp [chatLoopGo_zero] at hc
  | succ f ih =>
      intro a w c hc
      cases h : api a with
      | success resp =>
          rw [chatLoopGo_success cfg api pc a f w resp h] at hc
          simpa using hc
      | rateLimit =>
          rw [chatLoopGo_rateLimit cfg api pc a f w h] at hc
          rcases List.mem_cons.mp hc with rfl | hc
          · rfl
          · exact ih (a + 1) true c hc
      | apiError s =>
          by_cases h5 : s = 502
          · subst h5
            by_cases ha : a = numRetries - 1
            · rw [chatLoopGo_gateway_last cfg api pc a f w h ha] at hc
              simpa using hc
            · rw [chatLoopGo_gateway cfg api pc a f w h ha] at hc
              rcases List.mem_cons.mp hc with rfl | hc
              · rfl
              · exact ih (a + 1) w c hc
          · rw [chatLoopGo_otherError cfg api pc a f w s h h5] at hc
            simpa using hc

theorem embLoopGo_calls_eq {α : Type} (cfg : Config) (api : ℕ → ApiResult (EmbResponse α))
    (pc : EmbProviderCall) : ∀ (fuel a : ℕ) (c : EmbProviderCall),
    c ∈ (embLoopGo cfg api pc a fuel).2.calls → c = pc := by
  intro fuel
  induction fuel with
  | zero => intro a c hc; simp [embLoopGo_zero] at hc
  | succ f ih =>
      intro a c hc
      cases h : api a with
      | success resp =>
          rcases hd : resp.data with _ | ⟨d, ds⟩
          · simp [embLoopGo, h, hd] at hc
            simp [hc]
          · rw [embLoopGo_success cfg api pc a f resp d ds h hd] at hc
            simpa using hc
      | rateLimit =>
          rw [embLoopGo_rateLimit cfg api pc a f h] at hc
          rcases List.mem_cons.mp hc with rfl | hc
          · rfl
          · exact ih (a + 1) c hc
      | apiError s =>
          by_cases h5 : s = 502
          · subst h5
            by_cases ha : a = numRetries - 1
            · rw [embLoopGo_gateway_last cfg api pc a f h ha] at hc
              simpa using hc
            · rw [embLoopGo_gateway cfg api pc a f h ha] at hc
              rcases List.mem_cons.mp hc with rfl | hc
              · rfl
              · exact ih (a + 1) c hc
          · rw [embLoopGo_otherError cfg api pc a f s h h5] at hc
            simpa using hc

theorem chatLoopGo_no_advisory (cfg : Config) (api : ℕ → ApiResult ChatResponse)
    (pc : ProviderCall) : ∀ (fuel a : ℕ) (w : Bool),
    LogEvent.rateLimitAdvisory ∉ (chatLoopGo cfg api pc a fuel w).2.logs := by
  intro fuel
  induction fuel with
  | zero => intro a w; simp [chatLoopGo_zero]
  | succ f ih =>
      intro a w
      cases h : api a with
      | success resp =>
          rw [chatLoopGo_success cfg api pc a f w resp h]
          simp
      | rateLimit =>
          rw [chatLoopGo_rateLimit cfg api pc a f w h]
          intro hmem
          rcases List.mem_append.mp hmem with hmem | hmem
          · split at hmem <;> simp at hmem
          · exact ih (a + 1) true hmem
      | apiError s =>
          by_cases h5 : s = 502
          · subst h5
            by_cases ha : a = numRetries - 1
            · rw [chatLoopGo_gateway_last cfg api pc a f w h ha]
              simp
            · rw [chatLoopGo_gateway cfg api pc a f w h ha]
              intro hmem
              rcases List.mem_append.mp hmem with hmem | hmem
              · split at hmem <;> simp at hmem
              · exact ih (a + 1) w hmem
          · rw [chatLoopGo_otherError cfg api pc a f w s h h5]
            simp

theorem backoffList_get (a n i : ℕ) (h : i < (backoffList a n).length) :
    (backoffList a n).get ⟨i, h⟩ = 2 ^ (a + i + 2) := by
  simp [backoffList]

theorem transient_prefix_cond {α : Type} (api : ℕ → ApiResult α) (n : ℕ) (hn : n ≤ 9)
    (htrans : ∀ i, i < n → isTransient (api i)) :
    ∀ i, i < n → api (0 + i) = ApiResult.rateLimit ∨
      (api (0 + i) = ApiResult.apiError 502 ∧ 0 + i ≠ numRetries - 1) := by
  intro i hi
  rw [Nat.zero_add]
  rcases htrans i hi with h | h
  · exact Or.inl h
  · exact Or.inr ⟨h, by simp only [numRetries]; omega⟩

theorem finishChat_calls (cfg : Config) (logs0 : List LogEvent)
    (r : LoopExit × Effects ProviderCall) : (finishChat cfg logs0 r).calls = r.2.calls := by
  rcases r with ⟨ex, eff⟩
  cases ex with
  | broke resp =>
      rcases resp with ⟨choices⟩
      cases choices <;> rfl
  | raised s => rfl
  | exhausted => by_cases hd : cfg.debug_mode <;> simp [finishChat, hd]

theorem finishChat_logs (cfg : Config) (logs0 : List LogEvent)
    (r : LoopExit × Effects ProviderCall) :
    (finishChat cfg logs0 r).logs = logs0 ++ r.2.logs ∨
    (finishChat cfg logs0 r).logs = logs0 ++ r.2.logs ++
      [LogEvent.exhaustionTypewriter, LogEvent.exhaustionDoubleCheck] := by
  rcases r with ⟨ex, eff⟩
  cases ex with
  | broke resp =>
      rcases resp with ⟨choices⟩
      cases choices <;> exact Or.inl rfl
  | raised s => exact Or.inl rfl
  | exhausted => by_cases hd : cfg.debug_mode <;> simp [finishChat, hd]

theorem create_chat_completion_calls (cfg : Config) (api : ℕ → ApiResult ChatResponse)
    (messages : List PyMessage) (model : Option String) (temp : ℚ) (mt : Option ℕ) :
    (create_chat_completion cfg api messages model temp mt).calls =
      (chatLoopGo cfg api (mkChatProviderCall cfg messages model temp mt)
        0 numRetries false).2.calls := by
  unfold create_chat_completion
  exact finishChat_calls cfg _ _

theorem mkChatProviderCall_messages (cfg : Config) (m : List PyMessage) (mo : Option String)
    (t : ℚ) (mt : Option ℕ) : (mkChatProviderCall cfg m mo t mt).messages = m := by
  unfold mkChatProviderCall
  split <;> rfl

theorem mkChatProviderCall_temperature (cfg : Config) (m : List PyMessage) (mo : Option String)
    (t : ℚ) (mt : Option ℕ) : (mkChatProviderCall cfg m mo t mt).temperature = t := by
  unfold mkChatProviderCall
  split <;> rfl

theorem mkChatProviderCall_model (cfg : Config) (m : List PyMessage) (mo : Option String)
    (t : ℚ) (mt : Option ℕ) : (mkChatProviderCall cfg m mo t mt).model = mo := by
  unfold mkChatProviderCall
  split <;> rfl

theorem mkChatProviderCall_deployment (cfg : Config) (m : List PyMessage) (mo : Option String)
    (t : ℚ) (mt : Option ℕ) : (mkChatProviderCall cfg m mo t mt).deployment_id =
      (if cfg.use_azure then some (cfg.get_azure_deployment_id_for_model mo) else none) := by
  unfold mkChatProviderCall
  split <;> rfl

theorem chat_success_run (cfg : Config) (api : ℕ → ApiResult ChatResponse)
    (messages : List PyMessage) (model : Option String) (temp : ℚ) (mt : Option ℕ)
    (n : ℕ) (resp : ChatResponse) (c : Choice) (cs : List Choice)
    (hn : n < 10) (htrans : ∀ i, i < n → isTransient (api i))
    (hsucc : api n = ApiResult.success resp) (hch : resp.choices = c :: cs) :
    ∃ ls : List LogEvent, create_chat_completion cfg api messages model temp mt =
      ⟨ChatOutcome.returned c.message.content, backoffList 0 n, ls,
       List.replicate n (mkChatProviderCall cfg messages model temp mt) ++
         [mkChatProviderCall cfg messages model temp mt]⟩ := by
  obtain ⟨ls, hls⟩ := chatLoopGo_skip cfg api (mkChatProviderCall cfg messages model temp mt)
    n 0 numRetries false (by simp only [numRetries]; omega)
    (transient_prefix_cond api n (by omega) htrans)
  rw [Nat.zero_add] at hls
  obtain ⟨f, hf⟩ : ∃ f, numRetries - n = f + 1 :=
    ⟨numRetries - n - 1, by simp only [numRetries]; omega⟩
  rw [hf, chatLoopGo_success cfg api _ n f false resp hsucc] at hls
  refine ⟨(if cfg.debug_mode then [LogEvent.debugCreating] else []) ++ ls, ?_⟩
  unfold create_chat_completion
  rw [hls]
  simp [finishChat, hch]

theorem chat_error_run (cfg : Config) (api : ℕ → ApiResult ChatResponse)
    (messages : List PyMessage) (model : Option String) (temp : ℚ) (mt : Option ℕ)
    (k : ℕ) (s : Int) (hk : k < 10) (htrans : ∀ i, i < k → isTransient (api i))
    (herr : api k = ApiResult.apiError s) (hs : s ≠ 502) :
    ∃ ls : List LogEvent, create_chat_completion cfg api messages model temp mt =
      ⟨ChatOutcome.raisedApi s, backoffList 0 k, ls,
       List.replicate k (mkChatProviderCall cfg messages model temp mt) ++
         [mkChatProviderCall cfg messages model temp mt]⟩ := by
  obtain ⟨ls, hls⟩ := chatLoopGo_skip cfg api (mkChatProviderCall cfg messages model temp mt)
    k 0 numRetries false (by simp only [numRetries]; omega)
    (transient_prefix_cond api k (by omega) htrans)
  rw [Nat.zero_add] at hls
  obtain ⟨f, hf⟩ : ∃ f, numRetries - k = f + 1 :=
    ⟨numRetries - k - 1, by simp only [numRetries]; omega⟩
  rw [hf, chatLoopGo_otherError cfg api _ k f false s herr hs] at hls
  refine ⟨(if cfg.debug_mode then [LogEvent.debugCreating] else []) ++ ls, ?_⟩
  unfold create_chat_completion
  rw [hls]
  simp [finishChat]

theorem chat_exhaust_rl_run (cfg : Config) (api : ℕ → ApiResult ChatResponse)
    (messages : List PyMessage) (model : Option String) (temp : ℚ) (mt : Option ℕ)
    (htrans : ∀ i, i < 10 → isTransient (api i)) (h9 : api 9 = ApiResult.rateLimit) :
    ∃ ls : List LogEvent, create_chat_completion cfg api messages model temp mt =
      ⟨(if cfg.debug_mode then ChatOutcome.raisedRuntime else ChatOutcome.procQuit 1),
       backoffList 0 10,
       ls ++ [LogEvent.exhaustionTypewriter, LogEvent.exhaustionDoubleCheck],
       List.replicate 10 (mkChatProviderCall cfg messages model temp mt)⟩ := by
  have htrans' : ∀ i, i < 10 → api (0 + i) = ApiResult.rateLimit ∨
      (api (0 + i) = ApiResult.apiError 502 ∧ 0 + i ≠ numRetries - 1) := by
    intro i hi
    rw [Nat.zero_add]
    by_cases hi9 : i = 9
    · subst hi9
      exact Or.inl h9
    · rcases htrans i hi with h | h
      · exact Or.inl h
      · exact Or.inr ⟨h, by simp only [numRetries]; omega⟩
  obtain ⟨ls, hls⟩ := chatLoopGo_skip cfg api (mkChatProviderCall cfg messages model temp mt)
    10 0 numRetries false (by simp only [numRetries]; omega) htrans'
  rw [Nat.zero_add, show numRetries - 10 = 0 from rfl, chatLoopGo_zero] at hls
  refine ⟨(if cfg.debug_mode then [LogEvent.debugCreating] else []) ++ ls, ?_⟩
  unfold create_chat_completion
  rw [hls]
  by_cases hd : cfg.debug_mode <;> simp [finishChat, hd]

theorem chat_exhaust_502_run (cfg : Config) (api : ℕ → ApiResult ChatResponse)
    (messages : List PyMessage) (model : Option String) (temp : ℚ) (mt : Option ℕ)
    (htrans : ∀ i, i < 10 → isTransient (api i)) (h9 : api 9 = ApiResult.apiError 502) :
    ∃ ls : List LogEvent, create_chat_completion cfg api messages model temp mt =
      ⟨ChatOutcome.raisedApi 502, backoffList 0 9, ls,
       List.replicate 9 (mkChatProviderCall cfg messages model temp mt) ++
         [mkChatProviderCall cfg messages model temp mt]⟩ := by
  obtain ⟨ls, hls⟩ := chatLoopGo_skip cfg api (mkChatProviderCall cfg messages model temp mt)
    9 0 numRetries false (by simp only [numRetries]; omega)
    (transient_prefix_cond api 9 (by omega) (fun i hi => htrans i (by omega)))
  rw [Nat.zero_add, show numRetries - 9 = 1 from rfl,
    chatLoopGo_gateway_last cfg api _ 9 0 false h9 rfl] at hls
  refine ⟨(if cfg.debug_mode then [LogEvent.debugCreating] else []) ++ ls, ?_⟩
  unfold create_chat_completion
  rw [hls]
  simp [finishChat]

theorem mkEmbProviderCall_engine (cfg : Config) (text : String) :
    (mkEmbProviderCall cfg text).engine =
      (if cfg.use_azure then
        some (cfg.get_azure_deployment_id_for_model (some "text-embedding-ada-002")) else none) := by
  unfold mkEmbProviderCall
  split <;> rfl

theorem mkEmbProviderCall_model (cfg : Config) (text : String) :
    (mkEmbProviderCall cfg text).model =
      (if cfg.use_azure then none else some "text-embedding-ada-002") := by
  unfold mkEmbProviderCall
  split <;> rfl

theorem emb_success_run {α : Type} (cfg : Config) (api : ℕ → ApiResult (EmbResponse α))
    (text : String) (n : ℕ) (resp : EmbResponse α) (d : EmbItem α) (ds : List (EmbItem α))
    (hn : n < 10) (htrans : ∀ i, i < n → isTransient (api i))
    (hsucc : api n = ApiResult.success resp) (hd : resp.data = d :: ds) :
    ∃ ls : List LogEvent, create_embedding_with_ada cfg api text =
      ⟨EmbOutcome.returned d.embedding, backoffList 0 n, ls,
       List.replicate n (mkEmbProviderCall cfg text) ++ [mkEmbProviderCall cfg text]⟩ := by
  obtain ⟨ls, hls⟩ := embLoopGo_skip cfg api (mkEmbProviderCall cfg text)
    n 0 numRetries (by simp only [numRetries]; omega)
    (transient_prefix_cond api n (by omega) htrans)
  rw [Nat.zero_add] at hls
  obtain ⟨f, hf⟩ : ∃ f, numRetries - n = f + 1 :=
    ⟨numRetries - n - 1, by simp only [numRetries]; omega⟩
  rw [hf, embLoopGo_success cfg api _ n f resp d ds hsucc hd] at hls
  refine ⟨ls, ?_⟩
  unfold create_embedding_with_ada
  rw [hls]
  simp

theorem emb_exhaust_rl_run {α : Type} (cfg : Config) (api : ℕ → ApiResult (EmbResponse α))
    (text : String) (htrans : ∀ i, i < 10 → isTransient (api i))
    (h9 : api 9 = ApiResult.rateLimit) :
    ∃ ls : List LogEvent, create_embedding_with_ada cfg api text =
      ⟨EmbOutcome.returnedNone, backoffList 0 10, ls,
       List.replicate 10 (mkEmbProviderCall cfg text)⟩ := by
  have htrans' : ∀ i, i < 10 → api (0 + i) = ApiResult.rateLimit ∨
      (api (0 + i) = ApiResult.apiError 502 ∧ 0 + i ≠ numRetries - 1) := by
    intro i hi
    rw [Nat.zero_add]
    by_cases hi9 : i = 9
    · subst hi9
      exact Or.inl h9
    · rcases htrans i hi with h | h
      · exact Or.inl h
      · exact Or.inr ⟨h, by simp only [numRetries]; omega⟩
  obtain ⟨ls, hls⟩ := embLoopGo_skip cfg api (mkEmbProviderCall cfg text)
    10 0 numRetries (by simp only [numRetries]; omega) htrans'
  rw [Nat.zero_add, show numRetries - 10 = 0 from rfl, embLoopGo_zero] at hls
  refine ⟨ls, ?_⟩
  unfold create_embedding_with_ada
  rw [hls]
  simp

theorem emb_exhaust_502_run {α : Type} (cfg : Config) (api : ℕ → ApiResult (EmbResponse α))
    (text : String) (htrans : ∀ i, i < 10 → isTransient (api i))
    (h9 : api 9 = ApiResult.apiError 502) :
    ∃ ls : List LogEvent, create_embedding_with_ada cfg api text =
      ⟨EmbOutcome.raisedApi 502, backoffList 0 9, ls,
       List.replicate 9 (mkEmbProviderCall cfg text) ++ [mkEmbProviderCall cfg text]⟩ := by
  obtain ⟨ls, hls⟩ := embLoopGo_skip cfg api (mkEmbProviderCall cfg text)
    9 0 numRetries (by simp only [numRetries]; omega)
    (transient_prefix_cond api 9 (by omega) (fun i hi => htrans i (by omega)))
  rw [Nat.zero_add, show numRetries - 9 = 1 from rfl,
    embLoopGo_gateway_last cfg api _ 9 0 h9 rfl] at hls
  refine ⟨ls, ?_⟩
  unfold create_embedding_with_ada
  rw [hls]
  simp

/-- Concrete configuration for the concrete evaluations below: direct
(non-Azure) deployment, debug mode off. -/
def wCfg : Config := ⟨false, false, 0, "gpt-4", fun _ => "dep"⟩

/-- Concrete configuration with the Azure (proxied) deployment flag set. -/
def wCfgAzure : Config := ⟨true, false, 0, "gpt-4", fun _ => "dep"⟩

/-- Concrete successful chat response with a single choice. -/
def wResp : ChatResponse := ⟨[⟨⟨"ok"⟩⟩]⟩

/-- Schedule: success on every attempt. -/
def wApiS : ℕ → ApiResult ChatResponse := fun _ => ApiResult.success wResp

/-- Schedule: rate-limit, then a 502 gateway error, then success. -/
def wApiMix : ℕ → ApiResult ChatResponse := fun i =>
  if i = 0 then ApiResult.rateLimit
  else if i = 1 then ApiResult.apiError 502
  else ApiResult.success wResp

/-- Schedule: rate-limit, then an API error with status 500. -/
def wApiErr : ℕ → ApiResult ChatResponse := fun i =>
  if i = 0 then ApiResult.rateLimit else ApiResult.apiError 500

/-- Schedule: rate-limited on every attempt. -/
def wApiRL : ℕ → ApiResult ChatResponse := fun _ => ApiResult.rateLimit

/-- Schedule: a 502 gateway error on every attempt. -/
def wApi502 : ℕ → ApiResult ChatResponse := fun _ => ApiResult.apiError 502

/-- Schedule: rate-limit on attempt 0, then success. -/
def wApiRLS : ℕ → ApiResult ChatResponse := fun i =>
  if i = 0 then ApiResult.rateLimit else ApiResult.success wResp

/-- Concrete embedding response (payload type ℕ) with a single data item. -/
def wEResp : EmbResponse ℕ := ⟨[⟨7⟩]⟩

/-- Embedding schedule: success on every attempt. -/
def wEApiS : ℕ → ApiResult (EmbResponse ℕ) := fun _ => ApiResult.success wEResp

/-- Embedding schedule: rate-limited on every attempt. -/
def wEApiRL : ℕ → ApiResult (EmbResponse ℕ) := fun _ => ApiResult.rateLimit

/-- Embedding schedule: a 502 gateway error on every attempt. -/
def wEApi502 : ℕ → ApiResult (EmbResponse ℕ) := fun _ => ApiResult.apiError 502

/-- Claim C1: for every sequence of transient failures (rate-limit or 502) of
length n < 10 followed by a successful API response, `create_chat_completion`
returns exactly the success response's first-choice message content, performs
exactly n sleep calls, and the i-th sleep (counted from attempt 0) lasts
`2 ^ (i + 2)` seconds, i.e. 4, 8, 16, ... doubling per attempt. -/
theorem C1_transient_then_success (cfg : Config) (api : ℕ → ApiResult ChatResponse)
    (messages : List PyMessage) (model : Option String) (temp : ℚ) (mt : Option ℕ)
    (n : ℕ) (resp : ChatResponse) (c : Choice) (cs : List Choice)
    (hn : n < 10) (htrans : ∀ i, i < n → isTransient (api i))
    (hsucc : api n = ApiResult.success resp) (hch : resp.choices = c :: cs) :
    (create_chat_completion cfg api messages model temp mt).outcome =
      ChatOutcome.returned c.message.content ∧
    (create_chat_completion cfg api messages model temp mt).sleeps.length = n ∧
    ∀ (i : ℕ) (h : i < (create_chat_completion cfg api messages model temp mt).sleeps.length),
      (create_chat_completion cfg api messages model temp mt).sleeps.get ⟨i, h⟩ = 2 ^ (i + 2) := by
  obtain ⟨ls, hrun⟩ :=
    chat_success_run cfg api messages model temp mt n resp c cs hn htrans hsucc hch
  rw [hrun]
  refine ⟨rfl, backoffList_length 0 n, ?_⟩
  intro i h
  have hg := backoffList_get 0 n i h
  rw [show 0 + i + 2 = i + 2 by omega] at hg
  exact hg

/-- Concrete instance of C1: a rate limit, then a 502, then a success. -/
theorem C1_transient_then_success_witness :
    (create_chat_completion wCfg wApiMix [] none 0 none).outcome = ChatOutcome.returned "ok" ∧
    (create_chat_completion wCfg wApiMix [] none 0 none).sleeps.length = 2 :=
  ⟨(C1_transient_then_success wCfg wApiMix [] none 0 none 2 wResp ⟨⟨"ok"⟩⟩ [] (by omega)
      (fun i hi => by
        interval_cases i
        · exact Or.inl rfl
        · exact Or.inr rfl)
      rfl rfl).1,
   (C1_transient_then_success wCfg wApiMix [] none 0 none 2 wResp ⟨⟨"ok"⟩⟩ [] (by omega)
      (fun i hi => by
        interval_cases i
        · exact Or.inl rfl
        · exact Or.inr rfl)
      rfl rfl).2.1⟩

/-- Claim C2: if the API raises an `APIError` whose `http_status` is not 502
at attempt k (after transient failures), `create_chat_completion` propagates
the error immediately: exactly k + 1 attempts are made and only the k sleeps
of the earlier transient failures occur — none for the failing attempt or any
later one. -/
theorem C2_non502_propagates (cfg : Config) (api : ℕ → ApiResult ChatResponse)
    (messages : List PyMessage) (model : Option String) (temp : ℚ) (mt : Option ℕ)
    (k : ℕ) (s : Int) (hk : k < 10) (htrans : ∀ i, i < k → isTransient (api i))
    (herr : api k = ApiResult.apiError s) (hs : s ≠ 502) :
    (create_chat_completion cfg api messages model temp mt).outcome = ChatOutcome.raisedApi s ∧
    (create_chat_completion cfg api messages model temp mt).sleeps.length = k ∧
    (create_chat_completion cfg api messages model temp mt).calls.length = k + 1 := by
  obtain ⟨ls, hrun⟩ :=
    chat_error_run cfg api messages model temp mt k s hk htrans herr hs
  rw [hrun]
  exact ⟨rfl, backoffList_length 0 k, by simp⟩

/-- Concrete instance of C2: a rate limit, then a 500 API error, which
propagates after a single sleep. -/
theorem C2_non502_propagates_witness :
    (create_chat_completion wCfg wApiErr [] none 0 none).outcome = ChatOutcome.raisedApi 500 ∧
    (create_chat_completion wCfg wApiErr [] none 0 none).sleeps.length = 1 :=
  ⟨(C2_non502_propagates wCfg wApiErr [] none 0 none 1 500 (by omega)
      (fun i hi => by
        interval_cases i
        exact Or.inl rfl)
      rfl (by decide)).1,
   (C2_non502_propagates wCfg wApiErr [] none 0 none 1 500 (by omega)
      (fun i hi => by
        interval_cases i
        exact Or.inl rfl)
      rfl (by decide)).2.1⟩

/-- Counterexample to C3 as stated: with the debug flag unset and all ten
attempts failing transiently (502 gateway errors), the run re-raises the
`APIError` — it does not terminate the process with a non-zero exit status. -/
theorem C3_counterexample :
    wCfg.debug_mode = false ∧
    wApi502 9 = ApiResult.apiError 502 ∧
    (create_chat_completion wCfg wApi502 [] none 0 none).outcome = ChatOutcome.raisedApi 502 ∧
    (create_chat_completion wCfg wApi502 [] none 0 none).outcome ≠ ChatOutcome.procQuit 1 :=
  ⟨rfl, rfl, by decide, by decide⟩

/-- Claim C3, amended: if all 10 attempts fail transiently, then exactly 10
attempts are made and: when the 10th failure is a rate-limit, the failure is
logged and the run raises an error under the debug flag and terminates the
process with exit status 1 otherwise; but when the 10th failure is a 502
gateway error, the `APIError` is re-raised regardless of the debug flag. -/
theorem C3_amended_exhaustion (cfg : Config) (api : ℕ → ApiResult ChatResponse)
    (messages : List PyMessage) (model : Option String) (temp : ℚ) (mt : Option ℕ)
    (htrans : ∀ i, i < 10 → isTransient (api i)) :
    (api 9 = ApiResult.rateLimit →
      (create_chat_completion cfg api messages model temp mt).calls.length = 10 ∧
      (cfg.debug_mode = true →
        (create_chat_completion cfg api messages model temp mt).outcome =
          ChatOutcome.raisedRuntime) ∧
      (cfg.debug_mode = false →
        (create_chat_completion cfg api messages model temp mt).outcome =
          ChatOutcome.procQuit 1) ∧
      LogEvent.exhaustionTypewriter ∈ (create_chat_completion cfg api messages model temp mt).logs ∧
      LogEvent.exhaustionDoubleCheck ∈
        (create_chat_completion cfg api messages model temp mt).logs) ∧
    (api 9 = ApiResult.apiError 502 →
      (create_chat_completion cfg api messages model temp mt).calls.length = 10 ∧
      (create_chat_completion cfg api messages model temp mt).outcome =
        ChatOutcome.raisedApi 502) := by
  constructor
  · intro h9
    obtain ⟨ls, hrun⟩ := chat_exhaust_rl_run cfg api messages model temp mt htrans h9
    rw [hrun]
    refine ⟨by simp, ?_, ?_, by simp, by simp⟩
    · intro hd
      simp [hd]
    · intro hd
      simp [hd]
  · intro h9
    obtain ⟨ls, hrun⟩ := chat_exhaust_502_run cfg api messages model temp mt htrans h9
    rw [hrun]
    exact ⟨by simp, rfl⟩

/-- Concrete instance of the amended C3: ten rate-limit failures with debug
mode off terminate the process with exit status 1. -/
theorem C3_amended_exhaustion_witness :
    (create_chat_completion wCfg wApiRL [] none 0 none).outcome = ChatOutcome.procQuit 1 :=
  ((C3_amended_exhaustion wCfg wApiRL [] none 0 none (fun i _ => Or.inl rfl)).1 rfl).2.2.1 rfl

/-- Counterexample to C4 as stated: when all 10 attempts of
`create_embedding_with_ada` fail with rate-limit errors, the run does not
re-raise the last error — it falls off the loop and returns `None` after 10
sleeps. -/
theorem C4_counterexample :
    wEApiRL 9 = ApiResult.rateLimit ∧
    (create_embedding_with_ada wCfg wEApiRL "hello").outcome = EmbOutcome.returnedNone ∧
    (create_embedding_with_ada wCfg wEApiRL "hello").sleeps.length = 10 :=
  ⟨rfl, by decide, by decide⟩

/-- Claim C4, amended: `create_embedding_with_ada` applies the same retry
policy as `create_chat_completion` (10 attempts, backoff `2 ^ (attempt + 2)`,
same rate-limit and 502 handling) and never terminates the process; when all
10 attempts fail transiently it re-raises the last error only if the 10th
failure is a 502 gateway error — if the 10th failure is a rate-limit it
returns `None` without raising. -/
theorem C4_amended_embedding_policy {α : Type} (cfg : Config)
    (api : ℕ → ApiResult (EmbResponse α)) (text : String) :
    (∀ (n : ℕ) (resp : EmbResponse α) (d : EmbItem α) (ds : List (EmbItem α)),
      n < 10 → (∀ i, i < n → isTransient (api i)) → api n = ApiResult.success resp →
      resp.data = d :: ds →
      (create_embedding_with_ada cfg api text).outcome = EmbOutcome.returned d.embedding ∧
      (create_embedding_with_ada cfg api text).sleeps = backoffList 0 n) ∧
    ((∀ i, i < 10 → isTransient (api i)) → api 9 = ApiResult.apiError 502 →
      (create_embedding_with_ada cfg api text).outcome = EmbOutcome.raisedApi 502) ∧
    ((∀ i, i < 10 → isTransient (api i)) → api 9 = ApiResult.rateLimit →
      (create_embedding_with_ada cfg api text).outcome = EmbOutcome.returnedNone ∧
      (create_embedding_with_ada cfg api text).sleeps = backoffList 0 10) := by
  refine ⟨?_, ?_, ?_⟩
  · intro n resp d ds hn htrans hsucc hd
    obtain ⟨ls, hrun⟩ := emb_success_run cfg api text n resp d ds hn htrans hsucc hd
    rw [hrun]
    exact ⟨rfl, rfl⟩
  · intro htrans h9
    obtain ⟨ls, hrun⟩ := emb_exhaust_502_run cfg api text htrans h9
    rw [hrun]
  · intro htrans h9
    obtain ⟨ls, hrun⟩ := emb_exhaust_rl_run cfg api text htrans h9
    rw [hrun]
    exact ⟨rfl, rfl⟩

/-- Concrete instance of the amended C4: ten 502 failures re-raise the final
`APIError`. -/
theorem C4_amended_embedding_policy_witness :
    (create_embedding_with_ada wCfg wEApi502 "hello").outcome = EmbOutcome.raisedApi 502 :=
  (C4_amended_embedding_policy wCfg wEApi502 "hello").2.1 (fun i _ => Or.inr rfl) rfl

/-- Claim C5: `call_ai_function` builds the user message content by
stringifying each argument (`None` rendered as the literal string "None")
and joining with ", "; in particular args `[1, None, "x"]` produce
"1, None, x" and the empty argument list produces the empty string. Every
provider call issued carries exactly the system message and that user
message. -/
theorem C5_argument_rendering (cfg : Config) (api : ℕ → ApiResult ChatResponse)
    (function : String) (args : List PyArg) (description : String) (model : Option String) :
    (∀ pc ∈ (call_ai_function cfg api function args description model).calls,
      pc.messages = [⟨"system", systemContent function description⟩,
        ⟨"user", String.intercalate ", " (args.map strOfArg)⟩]) ∧
    String.intercalate ", " ([PyArg.pyInt 1, PyArg.pyNone, PyArg.pyStr "x"].map strOfArg) =
      "1, None, x" ∧
    String.intercalate ", " (([] : List PyArg).map strOfArg) = "" := by
  refine ⟨?_, rfl, rfl⟩
  intro pc hpc
  simp only [call_ai_function] at hpc
  rw [create_chat_completion_calls] at hpc
  rw [chatLoopGo_calls_eq cfg api _ numRetries 0 false pc hpc]
  exact mkChatProviderCall_messages cfg _ _ 0 none

/-- Concrete instance of C5: the single provider call of a successful
`call_ai_function` run with args `[1, None, "x"]` carries the user content
"1, None, x". -/
theorem C5_argument_rendering_witness :
    (mkChatProviderCall wCfg
        [⟨"system", systemContent "return x" "identity"⟩, ⟨"user", "1, None, x"⟩]
        (some "gpt-4") 0 none).messages =
      [⟨"system", systemContent "return x" "identity"⟩, ⟨"user", "1, None, x"⟩] :=
  (C5_argument_rendering wCfg wApiS "return x"
      [PyArg.pyInt 1, PyArg.pyNone, PyArg.pyStr "x"] "identity" none).1
    (mkChatProviderCall wCfg
        [⟨"system", systemContent "return x" "identity"⟩, ⟨"user", "1, None, x"⟩]
        (some "gpt-4") 0 none)
    (by decide)

/-- Claim C6: whenever a call succeeds, the value returned is exactly the
first choice's message content (chat completion) or the first data item's
embedding field (embedding) — never an aggregate of multiple choices or
items. -/
theorem C6_first_item_only {α : Type} (cfg : Config) (capi : ℕ → ApiResult ChatResponse)
    (eapi : ℕ → ApiResult (EmbResponse α)) (messages : List PyMessage) (model : Option String)
    (temp : ℚ) (mt : Option ℕ) (text : String) (n m : ℕ) (resp : ChatResponse) (c : Choice)
    (cs : List Choice) (eresp : EmbResponse α) (d : EmbItem α) (ds : List (EmbItem α))
    (hn : n < 10) (hctrans : ∀ i, i < n → isTransient (capi i))
    (hcs : capi n = ApiResult.success resp) (hch : resp.choices = c :: cs)
    (hm : m < 10) (hetrans : ∀ i, i < m → isTransient (eapi i))
    (hes : eapi m = ApiResult.success eresp) (hed : eresp.data = d :: ds) :
    (create_chat_completion cfg capi messages model temp mt).outcome =
      ChatOutcome.returned c.message.content ∧
    (create_embedding_with_ada cfg eapi text).outcome = EmbOutcome.returned d.embedding := by
  obtain ⟨ls1, h1⟩ :=
    chat_success_run cfg capi messages model temp mt n resp c cs hn hctrans hcs hch
  obtain ⟨ls2, h2⟩ := emb_success_run cfg eapi text m eresp d ds hm hetrans hes hed
  rw [h1, h2]
  exact ⟨rfl, rfl⟩

/-- Concrete instance of C6: immediate successes with a single choice /
single data item return that choice's content and that item's embedding. -/
theorem C6_first_item_only_witness :
    (create_chat_completion wCfg wApiS [] none 0 none).outcome = ChatOutcome.returned "ok" ∧
    (create_embedding_with_ada wCfg wEApiS "t").outcome = EmbOutcome.returned 7 :=
  C6_first_item_only wCfg wApiS wEApiS [] none 0 none "t" 0 0 wResp ⟨⟨"ok"⟩⟩ [] wEResp ⟨7⟩ []
    (by omega) (fun i hi => absurd hi (by omega)) rfl rfl
    (by omega) (fun i hi => absurd hi (by omega)) rfl rfl

/-- Counterexample to C7 as stated: a run that hits a rate-limit error on
attempt 0 and then succeeds logs no rate-limit advisory at all — rather than
exactly once — because the advisory call is commented out in the source. -/
theorem C7_counterexample :
    wApiRLS 0 = ApiResult.rateLimit ∧
    (create_chat_completion wCfg wApiRLS [] none 0 none).outcome = ChatOutcome.returned "ok" ∧
    (create_chat_completion wCfg wApiRLS [] none 0 none).logs.count
      LogEvent.rateLimitAdvisory = 0 :=
  ⟨rfl, by decide, by decide⟩

/-- Claim C7, amended: rate-limit errors are retried silently and no
user-facing rate-limit advisory is ever logged in any run — the
`logger.double_check` advisory call is disabled (commented out); only the
internal `warned_user` flag is set on the first rate-limit error. -/
theorem C7_amended_no_advisory (cfg : Config) (api : ℕ → ApiResult ChatResponse)
    (messages : List PyMessage) (model : Option String) (temp : ℚ) (mt : Option ℕ) :
    (create_chat_completion cfg api messages model temp mt).logs.count
      LogEvent.rateLimitAdvisory = 0 := by
  rw [List.count_eq_zero]
  unfold create_chat_completion
  rcases finishChat_logs cfg (if cfg.debug_mode then [LogEvent.debugCreating] else [])
      (chatLoopGo cfg api (mkChatProviderCall cfg messages model temp mt) 0 numRetries false)
    with h | h <;> rw [h]
  · intro hmem
    rcases List.mem_append.mp hmem with hmem | hmem
    · revert hmem
      split <;> simp
    · exact chatLoopGo_no_advisory cfg api _ numRetries 0 false hmem
  · intro hmem
    rcases List.mem_append.mp hmem with hmem | hmem
    · rcases List.mem_append.mp hmem with hmem | hmem
      · revert hmem
        split <;> simp
      · exact chatLoopGo_no_advisory cfg api _ numRetries 0 false hmem
    · simp at hmem

/-- Claim C8: every provider call carries the deployment mapping exactly when
the Azure flag is set — the chat call passes
`deployment_id = get_azure_deployment_id_for_model(model)` (and still the
model name), the embedding call passes the mapped `engine`; with the flag
unset the model name is passed directly and no mapping is applied. -/
theorem C8_deployment_mapping {α : Type} (cfg : Config) (capi : ℕ → ApiResult ChatResponse)
    (eapi : ℕ → ApiResult (EmbResponse α)) (messages : List PyMessage) (model : Option String)
    (temp : ℚ) (mt : Option ℕ) (text : String) :
    (∀ pc ∈ (create_chat_completion cfg capi messages model temp mt).calls,
      pc.deployment_id =
        (if cfg.use_azure then some (cfg.get_azure_deployment_id_for_model model) else none) ∧
      pc.model = model) ∧
    (∀ pc ∈ (create_embedding_with_ada cfg eapi text).calls,
      pc.engine =
        (if cfg.use_azure then
          some (cfg.get_azure_deployment_id_for_model (some "text-embedding-ada-002"))
         else none) ∧
      pc.model = (if cfg.use_azure then none else some "text-embedding-ada-002")) := by
  constructor
  · intro pc hpc
    rw [create_chat_completion_calls] at hpc
    rw [chatLoopGo_calls_eq cfg capi _ numRetries 0 false pc hpc]
    exact ⟨mkChatProviderCall_deployment cfg messages model temp mt,
      mkChatProviderCall_model cfg messages model temp mt⟩
  · intro pc hpc
    have hpcm : pc ∈ (embLoopGo cfg eapi (mkEmbProviderCall cfg text) 0 numRetries).2.calls := hpc
    rw [embLoopGo_calls_eq cfg eapi _ numRetries 0 pc hpcm]
    exact ⟨mkEmbProviderCall_engine cfg text, mkEmbProviderCall_model cfg text⟩

/-- Concrete instance of C8: with the Azure flag set, the chat provider call
carries the mapped deployment identifier alongside the model name. -/
theorem C8_deployment_mapping_witness :
    (mkChatProviderCall wCfgAzure [] (some "gpt-4") 0 none).deployment_id =
      (if wCfgAzure.use_azure then
        some (wCfgAzure.get_azure_deployment_id_for_model (some "gpt-4")) else none) ∧
    (mkChatProviderCall wCfgAzure [] (some "gpt-4") 0 none).model = some "gpt-4" :=
  (C8_deployment_mapping wCfgAzure wApiS wEApiS [] (some "gpt-4") 0 none "t").1
    (mkChatProviderCall wCfgAzure [] (some "gpt-4") 0 none) (by decide)

/-- Claim C9 (implicit): every provider call issued by `call_ai_function`
carries temperature 0, overriding the configured default temperature,
regardless of arguments or model. -/
theorem C9_call_ai_function_temperature (cfg : Config) (api : ℕ → ApiResult ChatResponse)
    (function : String) (args : List PyArg) (description : String) (model : Option String) :
    ∀ pc ∈ (call_ai_function cfg api function args description model).calls,
      pc.temperature = 0 := by
  intro pc hpc
  simp only [call_ai_function] at hpc
  rw [create_chat_completion_calls] at hpc
  rw [chatLoopGo_calls_eq cfg api _ numRetries 0 false pc hpc]
  exact mkChatProviderCall_temperature cfg _ _ 0 none

/-- Concrete instance of C9: the single provider call of a successful
`call_ai_function` run has temperature 0 even though the configured default
differs. -/
theorem C9_call_ai_function_temperature_witness :
    (mkChatProviderCall ⟨false, false, 9 / 10, "gpt-4", fun _ => "dep"⟩
        [⟨"system", systemContent "return 1" "one"⟩, ⟨"user", ""⟩]
        (some "gpt-4") 0 none).temperature = 0 :=
  C9_call_ai_function_temperature ⟨false, false, 9 / 10, "gpt-4", fun _ => "dep"⟩
    wApiS "return 1" [] "one" none
    (mkChatProviderCall ⟨false, false, 9 / 10, "gpt-4", fun _ => "dep"⟩
        [⟨"system", systemContent "return 1" "one"⟩, ⟨"user", ""⟩]
        (some "gpt-4") 0 none)
    (by decide)

/-- Claim C10 (implicit): if all 10 attempts of `create_embedding_with_ada`
fail with rate-limit errors, the function performs 10 sleeps — including one
after the final failed attempt — and then returns `None` rather than raising
an error or returning an embedding vector. -/
theorem C10_embedding_rate_limit_returns_none {α : Type} (cfg : Config)
    (api : ℕ → ApiResult (EmbResponse α)) (text : String)
    (h : ∀ i, i < 10 → api i = ApiResult.rateLimit) :
    (create_embedding_with_ada cfg api text).outcome = EmbOutcome.returnedNone ∧
    (create_embedding_with_ada cfg api text).sleeps.length = 10 ∧
    (create_embedding_with_ada cfg api text).sleeps = backoffList 0 10 := by
  obtain ⟨ls, hrun⟩ := emb_exhaust_rl_run cfg api text
    (fun i hi => Or.inl (h i hi)) (h 9 (by omega))
  rw [hrun]
  exact ⟨rfl, backoffList_length 0 10, rfl⟩

/-- Concrete instance of C10: ten rate-limit failures produce ten sleeps and
a `None` return. -/
theorem C10_embedding_rate_limit_returns_none_witness :
    (create_embedding_with_ada wCfg wEApiRL "t").outcome = EmbOutcome.returnedNone ∧
    (create_embedding_with_ada wCfg wEApiRL "t").sleeps.length = 10 :=
  ⟨(C10_embedding_rate_limit_returns_none wCfg wEApiRL "t" (fun i _ => rfl)).1,
   (C10_embedding_rate_limit_returns_none wCfg wEApiRL "t" (fun i _ => rfl)).2.1⟩
